import Mathlib

/-!
Shallow embedding of the fiscal-period aggregation dashboard
(`src/app.py`, `src/pages/1_Revenue.py`, `src/pages/2_Cashflow.py`).

Amounts are modelled as `Rat` (the Python code manipulates decimal query
results as floats; no claim here depends on binary floating point).
Calendar months are modelled by their linear index `year * 12 + (month - 1)`,
which is in bijection with the month-start timestamps the pandas code joins
and sorts on.

`pandas.sort_values` is modelled by `List.insertionSort`, a deterministic
comparison sort.  The source uses pandas' default sort kind, whose ordering
of rows with equal keys is not documented; every theorem below about sorted
output is invariant under which order rows with equal keys end up in
(lengths, multisets, membership, sortedness), so this modelling choice is
not load-bearing for any claim settled here.
-/

namespace AbsurdMI

/-- Linear month index: `year * 12 + (month - 1)`.  The pandas code joins on
month-start `datetime` values, which correspond 1-1 to these indices. -/
abbrev Month := Nat

/-- Embeds `pd.date_range(start, end, freq="MS")` for a range whose start is
itself a month start (`app.py` lines 24-28): the list of months from `s`
through `e`, inclusive, in chronological order. -/
def monthRange (s e : Month) : List Month :=
  (List.range (e + 1 - s)).map (fun i => s + i)

/-- Embeds the pandas left merge `months_df.merge(result, on='month',
how='left')` (`app.py` line 70, `1_Revenue.py` line 123): one output row per
bucket/matching-row pair, a single `NaN`-amount row (here `none`) for a
bucket with no matching row.  Left merge emits one row per match, so a month
duplicated in `rows` yields several rows for that bucket.  `monthSegment`
is the block of merged rows one bucket contributes. -/
def monthSegment (rows : List (Month × Rat)) (b : Month) :
    List (Month × Option Rat) :=
  let hits := rows.filter (fun r => r.1 = b)
  if hits.isEmpty then [(b, none)] else hits.map (fun r => (b, some r.2))

/-- The left merge itself: the buckets' segments, concatenated in bucket
order. -/
def leftJoinMonths (buckets : List Month) (rows : List (Month × Rat)) :
    List (Month × Option Rat) :=
  buckets.flatMap (monthSegment rows)

/-- Embeds `result['total_amount'].fillna(0)` (`app.py` line 73,
`1_Revenue.py` line 124). -/
def fillnaZero (l : List (Month × Option Rat)) : List (Month × Rat) :=
  l.map (fun p => (p.1, p.2.getD 0))

/-- Embeds the month gap-fill pipeline: left merge onto the bucket
scaffold, `fillna(0)`, then `sort_values(by='month')`
(`app.py` lines 70-76, `1_Revenue.py` lines 123-125). -/
def fill_months (buckets : List Month) (rows : List (Month × Rat)) :
    List (Month × Rat) :=
  List.insertionSort (fun p q => p.1 ≤ q.1) (fillnaZero (leftJoinMonths buckets rows))

instance : IsTotal (Month × Rat) (fun p q => p.1 ≤ q.1) :=
  ⟨fun a b => Nat.le_total a.1 b.1⟩

instance : IsTrans (Month × Rat) (fun p q => p.1 ≤ q.1) :=
  ⟨fun _ _ _ h h' => Nat.le_trans h h'⟩

/-- Embeds the monthly-totals branch of `app.py` (lines 57-76) and
`1_Revenue.py` (lines 113-125): the query rows are turned into
`pd.DataFrame(data)`; when the query returned zero rows that frame has no
columns at all, so the very next statement
`result['month'] = pd.to_datetime(result['month'], ...)` raises
`KeyError: 'month'` (caught only by the page-wide `except`, which replaces
the whole page with an error message).  Otherwise the frame is gap-filled
onto the fiscal-year scaffold. -/
def monthlyPipeline (s e : Month) (rows : List (Month × Rat)) :
    Except String (List (Month × Rat)) :=
  if rows.isEmpty then Except.error ("KeyError: month")
  else Except.ok (fill_months (monthRange s e) rows)

/-- Embeds `total_invoiced_current = current_data['total_amount'].sum()`
(`1_Revenue.py` line 127): the sum of the gap-filled current-year monthly
series, i.e. a period total coming from the *monthly* query.  Line 127 is
only reached when that query returned at least one row — on zero rows the
page already died at line 116 with the `KeyError` of `monthlyPipeline` —
so `revenueComparisonTable` below guards every use of this function with
that emptiness check. -/
def totalInvoicedCurrent (s e : Month) (rows : List (Month × Rat)) : Rat :=
  ((fill_months (monthRange s e) rows).map Prod.snd).sum

/-- Embeds `total_invoiced_previous = previous_data['total_amount'].sum()
if not previous_data.empty else 0` (`1_Revenue.py` line 128). -/
def totalInvoicedPrevious (rows : List (Month × Rat)) : Rat :=
  if rows.isEmpty then 0 else (rows.map Prod.snd).sum

/-- Embeds the year-over-year percentage used for the metric and for the
totals row (`1_Revenue.py` lines 130-134): a zero previous total is mapped
to `0.0`, not to an undefined marker. -/
def percent_diff (totalCur totalPrev : Rat) : Rat :=
  if totalPrev = 0 then 0 else (totalCur - totalPrev) / totalPrev * 100

/-- One row of the "Revenue by Client" comparison table
(`1_Revenue.py` lines 139-170): the columns `Client name`, `Revenue YTD`,
`Revenue previous YTD`, `Difference`, `% Difference`.  The percentage cell
is `Option Rat`: `none` embeds the Python `None` marker. -/
structure ComparisonRow where
  client_name : String
  revenue_current : Rat
  revenue_previous : Rat
  difference : Rat
  pct_difference : Option Rat
deriving DecidableEq, Repr

/-- Embeds `calc_percentage_diff` (`1_Revenue.py` lines 145-148): `None`
for a zero previous amount, else the signed percentage change. -/
def calc_percentage_diff (cur prev : Rat) : Option Rat :=
  if prev = 0 then none else some ((cur - prev) / prev * 100)

/-- Embeds `pd.merge(current_clients_df, prev_clients_df, on='client_name',
how='outer').fillna(0)` (`1_Revenue.py` line 139) for two frames that both
carry a `client_name` column, i.e. two nonempty query results: every key of
either side appears, a missing side becomes `0` after `fillna`; duplicated
keys (which the grouped queries never produce) behave as the pandas join
does, one row per matching pair.  When either query returns zero rows its
frame is `pd.DataFrame([])` with no columns at all and the merge instead
raises `KeyError: 'client_name'`; that error path is modelled by
`revenueComparisonTable` below, which guards this join with the emptiness
checks. -/
def outerMergeClients (cur prev : List (String × Rat)) :
    List (String × Rat × Rat) :=
  (cur.flatMap (fun c =>
    let hits := prev.filter (fun p => p.1 = c.1)
    if hits.isEmpty then [(c.1, c.2, (0 : Rat))]
    else hits.map (fun p => (c.1, c.2, p.2)))) ++
  ((prev.filter (fun p => (cur.filter (fun c => c.1 = p.1)).isEmpty)).map
    (fun p => (p.1, (0 : Rat), p.2)))

instance : IsTotal ComparisonRow (fun a b => b.revenue_current ≤ a.revenue_current) :=
  ⟨fun a b => le_total b.revenue_current a.revenue_current⟩

instance : IsTrans ComparisonRow (fun a b => b.revenue_current ≤ a.revenue_current) :=
  ⟨fun _ _ _ h h' => le_trans h' h⟩

/-- Embeds steps (a)-(d) of the client table (`1_Revenue.py` lines
141-159): the outer join, the `Difference` and `% Difference` columns, and
`sort_values(by='Revenue YTD', ascending=False)`. -/
def clientsMergedRows (cur prev : List (String × Rat)) : List ComparisonRow :=
  List.insertionSort (fun a b => b.revenue_current ≤ a.revenue_current)
    ((outerMergeClients cur prev).map
      (fun x => ⟨x.1, x.2.1, x.2.2, x.2.1 - x.2.2, calc_percentage_diff x.2.1 x.2.2⟩))

/-- Embeds the `totals_row` dict (`1_Revenue.py` lines 162-169): its
amounts are `total_invoiced_current` / `total_invoiced_previous` (the
monthly-query period totals) and its percentage is the metric-level
`percent_diff`, wrapped in `some` as it sits in the same column as the
`Option`-valued per-row percentages. -/
def totals_row (totalCur totalPrev : Rat) : ComparisonRow :=
  ⟨"Total", totalCur, totalPrev, totalCur - totalPrev, some (percent_diff totalCur totalPrev)⟩

/-- Embeds `pd.concat([clients_merged, pd.DataFrame([totals_row])])`
(`1_Revenue.py` line 170): the finished comparison table, totals row
appended after sorting. -/
def clientsTable (cur prev : List (String × Rat)) (totalCur totalPrev : Rat) :
    List ComparisonRow :=
  clientsMergedRows cur prev ++ [totals_row totalCur totalPrev]

/-- Embeds the "Revenue by Client" pipeline of `1_Revenue.py` lines
113-170 end to end, including its error paths.  When the current monthly
query returns zero rows, `current_data['month']` at line 116 hits a
column-less `pd.DataFrame([])` and raises `KeyError: 'month'`; when either
client-level query returns zero rows, its frame has no `client_name`
column and `pd.merge(..., on='client_name')` at line 139 raises
`KeyError: 'client_name'`.  Both errors are caught only by the page-wide
`except`, so no comparison table and no totals row exist on those inputs.
Otherwise the table of `clientsTable` is built, carrying the
monthly-query period totals (an empty *previous* monthly result is
handled at line 128 and yields a zero previous total). -/
def revenueComparisonTable (s e : Month)
    (curMonthly prevMonthly : List (Month × Rat))
    (curClients prevClients : List (String × Rat)) :
    Except String (List ComparisonRow) :=
  if curMonthly.isEmpty then Except.error ("KeyError: month")
  else if curClients.isEmpty ∨ prevClients.isEmpty then
    Except.error ("KeyError: client_name")
  else
    Except.ok (clientsTable curClients prevClients
      (totalInvoicedCurrent s e curMonthly) (totalInvoicedPrevious prevMonthly))

/-- Digits of the integer part grouped in threes from the right; helper for
the Python thousands-separated format `"{:,.1f}"`. -/
def chunk3 : List Char → List (List Char)
  | [] => []
  | [a] => [[a]]
  | [a, b] => [[a, b]]
  | a :: b :: c :: rest => [a, b, c] :: chunk3 rest

/-- Decimal digits of `n` with a comma between every group of three,
matching Python's thousands separator. -/
def formatNatCommas (n : Nat) : String :=
  let digits := (toString n).data
  let groups := (chunk3 digits.reverse).map List.reverse
  String.intercalate (",") (groups.reverse.map (fun g => String.mk g))

/-- Rounds `x * 10` to the nearest integer, ties to even, the rounding mode
of Python's fixed-point formatting; models `"{:,.1f}"` with exact decimal
arithmetic in place of the source's binary floats. -/
def roundHalfEven10 (x : Rat) : Int :=
  let q := x * 10
  let f : Int := ⌊q⌋
  let frac := q - f
  if frac < (1 : Rat) / 2 then f
  else if (1 : Rat) / 2 < frac then f + 1
  else if f % 2 = 0 then f else f + 1

/-- Renders a defined percentage as `"{x:,.1f}%"`. -/
def formatPctValue (x : Rat) : String :=
  let t := roundHalfEven10 x
  let a := t.natAbs
  (if t < 0 then ("-") else ("")) ++ formatNatCommas (a / 10) ++ (".") ++
    toString (a % 10) ++ ("%")

/-- Embeds the `% Difference` column formatter
`lambda x: "-" if pd.isnull(x) else f"{x:,.1f}%"` (`1_Revenue.py` line
242): the `None` marker renders as a single dash. -/
def formatPctCell : Option Rat → String
  | none => "-"
  | some v => formatPctValue v

/-- A Python `datetime` date (time-of-day components are unused by the
pipeline). -/
structure PyDate where
  year : Int
  month : Nat
  day : Nat
deriving DecidableEq, Repr

/-- Embeds the fiscal-year-start computation that appears identically in
`app.py` lines 16-21, `1_Revenue.py` lines 30-33 and `2_Cashflow.py` lines
105-108: October 1 of the current calendar year when `today.month >= 10`,
else October 1 of the previous calendar year. -/
def start_of_financial_year (today : PyDate) : PyDate :=
  if 10 ≤ today.month then ⟨today.year, 10, 1⟩ else ⟨today.year - 1, 10, 1⟩

/-- Gregorian leap year over `Int` years. -/
def isLeapYear (y : Int) : Prop :=
  y % 4 = 0 ∧ (y % 100 ≠ 0 ∨ y % 400 = 0)

instance (y : Int) : Decidable (isLeapYear y) := by
  unfold isLeapYear; infer_instance

/-- Number of days of month `m` of year `y`. -/
def daysInMonth (y : Int) (m : Nat) : Nat :=
  if m = 2 then (if isLeapYear y then 29 else 28)
  else if m = 4 ∨ m = 6 ∨ m = 9 ∨ m = 11 then 30 else 31

/-- A well-formed calendar date. -/
def validDate (d : PyDate) : Prop :=
  1 ≤ d.month ∧ d.month ≤ 12 ∧ 1 ≤ d.day ∧ d.day ≤ daysInMonth d.year d.month

instance (d : PyDate) : Decidable (validDate d) := by
  unfold validDate; infer_instance

/-- Embeds `pd.Timestamp(d) - pd.DateOffset(years=1)` (`1_Revenue.py`
lines 37-38): the calendar year is decremented, month and day are kept,
and the only day clamp a one-year shift can need is Feb 29 of a leap year
landing on Feb 28 (the preceding year is never a leap year). -/
def dateOffsetSubYear (d : PyDate) : PyDate :=
  if d.month = 2 ∧ d.day = 29 then ⟨d.year - 1, 2, 28⟩
  else ⟨d.year - 1, d.month, d.day⟩

/-- The pair of fiscal-year boundary dates. -/
structure FiscalYearBounds where
  start_date : PyDate
  end_date : PyDate
deriving DecidableEq, Repr

/-- Embeds `start_of_previous_financial_year` /
`end_of_previous_financial_year` (`1_Revenue.py` lines 37-38): both
boundaries shifted back one calendar year via `pd.DateOffset(years=1)`. -/
def previous_financial_year (fy : FiscalYearBounds) : FiscalYearBounds :=
  ⟨dateOffsetSubYear fy.start_date, dateOffsetSubYear fy.end_date⟩

/-- The credential fields of the service-account dict, paired with the
environment variable each is read from in `2_Cashflow.py` lines 22-33; the
pair order is the dict-literal order, which is also the order
`st.secrets["gcp"][...]` accesses happen in `1_Revenue.py` lines 11-22. -/
def credEnvVars : List (String × String) :=
  [("type", "GCP_TYPE"),
   ("project_id", "GCP_PROJECT_ID"),
   ("private_key_id", "GCP_PRIVATE_KEY_ID"),
   ("private_key", "GCP_PRIVATE_KEY"),
   ("client_email", "GCP_CLIENT_EMAIL"),
   ("client_id", "GCP_CLIENT_ID"),
   ("auth_uri", "GCP_AUTH_URI"),
   ("token_uri", "GCP_TOKEN_URI"),
   ("auth_provider_x509_cert_url", "GCP_AUTH_PROVIDER_X509_CERT_URL"),
   ("client_x509_cert_url", "GCP_CLIENT_X509_CERT_URL")]

/-- Embeds `missing_vars = [key for key, value in credentials_dict.items()
if value is None]` (`2_Cashflow.py` line 36) over an environment `env`
(modelling `os.environ.get`). -/
def missing_vars (env : String → Option String) : List String :=
  (credEnvVars.filter (fun p => (env p.2).isNone)).map Prod.fst

/-- Embeds `load_credentials` (`2_Cashflow.py` lines 17-41): when any
variable is absent the page stops with one message listing every missing
dict key; otherwise the credential dict is handed to the client
constructor (modelled as the dict itself). -/
def load_credentials (env : String → Option String) :
    Except String (List (String × String)) :=
  let missing := missing_vars env
  if missing.isEmpty then
    Except.ok (credEnvVars.map (fun p => (p.1, (env p.2).getD (""))))
  else
    Except.error (("Missing environment variables: ") ++
      String.intercalate (", ") missing)

/-- Embeds the credential dict literal of `1_Revenue.py` lines 11-22 over
a secrets store (modelling `st.secrets["gcp"]`): the entries are evaluated
in order and the first absent secret raises a key-lookup error naming only
that key (nothing catches it: the dict is built before the `try` block). -/
def revenue_credentials (secrets : String → Option String) :
    Except String (List (String × String)) :=
  match credEnvVars.find? (fun p => (secrets p.1).isNone) with
  | some p => Except.error p.1
  | none => Except.ok (credEnvVars.map (fun p => (p.1, (secrets p.1).getD (""))))

/-- Embeds the month-by-month cashflow table (`2_Cashflow.py` lines
150-184): when the monthly frame is empty only an info message is shown
(`none`); otherwise `pivot_table(columns='month_label', aggfunc='sum')`
produces one column per distinct month present in the data (summing rows
that share a month) and the columns are sorted chronologically via
`datetime.strptime(label, '%b-%Y')`, which recovers exactly the month the
label was formatted from.  No scaffold is joined: absent months get no
column. -/
def cashflow_month_table (rows : List (Month × Rat)) :
    Option (List (Month × Rat)) :=
  if rows.isEmpty then none
  else
    some ((List.insertionSort (fun a b => a ≤ b) (rows.map Prod.fst).dedup).map
      (fun m => (m, ((rows.filter (fun r => r.1 = m)).map Prod.snd).sum)))

/-! ### Helper lemmas -/

theorem filter_keys_nil {rows : List (Month × Rat)} {b : Month}
    (h : b ∉ rows.map Prod.fst) : rows.filter (fun r => r.1 = b) = [] := by
  rw [List.filter_eq_nil_iff]
  intro r hr hrb
  exact h (List.mem_map.mpr ⟨r, hr, by simpa using hrb⟩)

theorem filter_singleton_of_nodup (rows : List (Month × Rat)) (b : Month)
    (h : (rows.map Prod.fst).Nodup) :
    rows.filter (fun r => r.1 = b) = [] ∨
      ∃ r0, rows.filter (fun r => r.1 = b) = [r0] ∧
        rows.find? (fun r => r.1 = b) = some r0 := by
  induction rows with
  | nil => exact Or.inl rfl
  | cons r rs ih =>
    simp only [List.map_cons, List.nodup_cons] at h
    by_cases hb : r.1 = b
    · refine Or.inr ⟨r, ?_, ?_⟩
      · rw [List.filter_cons_of_pos (by simpa using hb)]
        rw [filter_keys_nil (hb ▸ h.1)]
      · exact List.find?_cons_of_pos _ (by simpa using hb)
    · rw [List.filter_cons_of_neg (by simpa using hb)]
      rw [List.find?_cons_of_neg _ (by simpa using hb)]
      exact ih h.2

theorem leftJoin_cons (b : Month) (bs : List Month) (rows : List (Month × Rat)) :
    leftJoinMonths (b :: bs) rows =
      monthSegment rows b ++ leftJoinMonths bs rows := by
  simp [leftJoinMonths]

theorem fillna_append (l₁ l₂ : List (Month × Option Rat)) :
    fillnaZero (l₁ ++ l₂) = fillnaZero l₁ ++ fillnaZero l₂ :=
  List.map_append _ _ _

theorem fillna_monthSegment (rows : List (Month × Rat)) (b : Month) :
    fillnaZero (monthSegment rows b) =
      if (rows.filter (fun r => r.1 = b)).isEmpty then [(b, (0 : Rat))]
      else (rows.filter (fun r => r.1 = b)).map (fun r => (b, r.2)) := by
  unfold monthSegment fillnaZero
  by_cases hc : (rows.filter (fun r => r.1 = b)).isEmpty
  · simp [hc]
  · simp [hc, List.map_map, Function.comp]

theorem fst_of_mem_fillna_monthSegment {rows : List (Month × Rat)} {b : Month}
    {p : Month × Rat} (h : p ∈ fillnaZero (monthSegment rows b)) : p.1 = b := by
  rw [fillna_monthSegment] at h
  split at h
  · simp at h
    rw [h]
  · obtain ⟨r, _, hr⟩ := List.mem_map.mp h
    rw [← hr]

theorem leftJoin_nodup_eq (buckets : List Month) (rows : List (Month × Rat))
    (h : (rows.map Prod.fst).Nodup) :
    fillnaZero (leftJoinMonths buckets rows) =
      buckets.map (fun b =>
        (b, ((rows.find? (fun r => r.1 = b)).map Prod.snd).getD 0)) := by
  induction buckets with
  | nil => rfl
  | cons b bs ih =>
    rw [List.map_cons, ← ih, leftJoin_cons, fillna_append, fillna_monthSegment]
    rcases filter_singleton_of_nodup rows b h with hnil | ⟨r0, hfil, hfind⟩
    · have hfind : rows.find? (fun r => r.1 = b) = none := by
        rw [List.find?_eq_none]
        intro x hx
        rw [List.filter_eq_nil_iff] at hnil
        exact hnil x hx
      simp [hnil, hfind]
    · simp [hfil, hfind]

theorem fst_mem_of_mem_fill {bs : List Month} {rows : List (Month × Rat)}
    {p : Month × Rat} (h : p ∈ fillnaZero (leftJoinMonths bs rows)) :
    p.1 ∈ bs := by
  induction bs with
  | nil => simp [leftJoinMonths, fillnaZero] at h
  | cons b' bs ih =>
    rw [leftJoin_cons, fillna_append, List.mem_append] at h
    rcases h with h | h
    · exact List.mem_cons.mpr (Or.inl (fst_of_mem_fillna_monthSegment h))
    · exact List.mem_cons.mpr (Or.inr (ih h))

theorem filter_fill_not_mem {bs : List Month} {rows : List (Month × Rat)}
    {b : Month} (h : b ∉ bs) :
    (fillnaZero (leftJoinMonths bs rows)).filter (fun p => p.1 = b) = [] := by
  rw [List.filter_eq_nil_iff]
  intro p hp hpb
  exact h ((by simpa using hpb : p.1 = b) ▸ fst_mem_of_mem_fill hp)

theorem filter_fill_eq (buckets : List Month) (rows : List (Month × Rat))
    (b : Month) (hnd : buckets.Nodup) (hb : b ∈ buckets) :
    (fillnaZero (leftJoinMonths buckets rows)).filter (fun p => p.1 = b) =
      if (rows.filter (fun r => r.1 = b)).isEmpty then [(b, (0 : Rat))]
      else (rows.filter (fun r => r.1 = b)).map (fun r => (b, r.2)) := by
  induction buckets with
  | nil => cases hb
  | cons b' bs ih =>
    rw [leftJoin_cons, fillna_append, List.filter_append]
    rw [List.nodup_cons] at hnd
    rcases List.mem_cons.mp hb with rfl | hbs
    · have h2 : (fillnaZero (leftJoinMonths bs rows)).filter (fun p => p.1 = b) = [] :=
        filter_fill_not_mem hnd.1
      have h1 : (fillnaZero (monthSegment rows b)).filter (fun p => p.1 = b) =
          fillnaZero (monthSegment rows b) :=
        List.filter_eq_self.mpr (fun p hp => by
          simpa using fst_of_mem_fillna_monthSegment hp)
      rw [h1, h2, List.append_nil, fillna_monthSegment]
    · have hne : b' ≠ b := fun he => hnd.1 (he ▸ hbs)
      have h1 : (fillnaZero (monthSegment rows b')).filter (fun p => p.1 = b) = [] := by
        rw [List.filter_eq_nil_iff]
        intro p hp hpb
        exact hne ((fst_of_mem_fillna_monthSegment hp) ▸ (by simpa using hpb))
      rw [h1, List.nil_append]
      exact ih hnd.2 hbs

/-! ### Claims C4 and C5: the gap-filling left join -/

/-- Claim C4, counterexample: with rows `[(0, 1), (0, 2)]` duplicating
month `0`, the output of `fill_months` over the single bucket `[0]` has
two entries, not `len(buckets) = 1` — the pandas left merge emits one row
per matching input row, so the claimed "exactly one entry per bucket for
every input row set" fails. -/
theorem fill_months_duplicate_length :
    (fill_months [0] [(0, (1 : Rat)), (0, 2)]).length ≠ ([0] : List Month).length := by
  decide

/-- Claim C4 (amended): for input rows with pairwise-distinct months — the
input contract the grouped upstream query guarantees — `fill_months` is a
left join onto the buckets: the output has exactly `len(buckets)` entries,
its months are a permutation of the buckets, it is chronologically sorted,
and each entry's amount is the matching row's amount when one exists and
exactly `0` otherwise. -/
theorem fill_months_left_join (buckets : List Month) (rows : List (Month × Rat))
    (hnd : (rows.map Prod.fst).Nodup) :
    (fill_months buckets rows).length = buckets.length ∧
    ((fill_months buckets rows).map Prod.fst).Perm buckets ∧
    List.Sorted (fun p q => p.1 ≤ q.1) (fill_months buckets rows) ∧
    ∀ p ∈ fill_months buckets rows,
      p.2 = ((rows.find? (fun r => r.1 = p.1)).map Prod.snd).getD 0 := by
  have hpre := leftJoin_nodup_eq buckets rows hnd
  refine ⟨?_, ?_, ?_, ?_⟩
  · rw [fill_months, List.length_insertionSort, hpre, List.length_map]
  · have h1 : ((fill_months buckets rows).map Prod.fst).Perm
        ((fillnaZero (leftJoinMonths buckets rows)).map Prod.fst) :=
      (List.perm_insertionSort _ _).map _
    refine h1.trans ?_
    have hmap : (fillnaZero (leftJoinMonths buckets rows)).map Prod.fst = buckets := by
      rw [hpre, List.map_map]
      exact List.map_id buckets
    rw [hmap]
  · exact List.sorted_insertionSort _ _
  · intro p hp
    rw [fill_months, List.mem_insertionSort, hpre] at hp
    obtain ⟨b, _, hpb⟩ := List.mem_map.mp hp
    rw [← hpb]

/-- Claim C4 witness: a concrete nodup instance of the amended claim. -/
theorem fill_months_left_join_witness :
    (fill_months [0, 1] [(1, (5 : Rat))]).length = ([0, 1] : List Month).length :=
  (fill_months_left_join [0, 1] [(1, (5 : Rat))] (by decide)).1

/-- Claim C5, counterexample: two rows for month `0` with amounts `1` and
`2` are not summed into the single entry `(0, 3)` the claim requires —
the join keeps both rows. -/
theorem fill_months_duplicates_kept :
    fill_months [0] [(0, (1 : Rat)), (0, 2)] ≠ [(0, 3)] := by
  decide

/-- Claim C5 (amended): when several input rows match the same bucket
month, the left join emits one output entry per matching row: the output
amounts carried by that bucket are exactly the matching rows' amounts (as
a multiset), so nothing is dropped and nothing is summed; a bucket with no
matching row carries the single amount `0`. -/
theorem fill_months_duplicate_amounts (buckets : List Month)
    (rows : List (Month × Rat)) (b : Month) (hnd : buckets.Nodup)
    (hb : b ∈ buckets) :
    (((fill_months buckets rows).filter (fun p => p.1 = b)).map Prod.snd).Perm
      (if (rows.filter (fun r => r.1 = b)).isEmpty then [(0 : Rat)]
       else (rows.filter (fun r => r.1 = b)).map Prod.snd) := by
  have h1 : ((fill_months buckets rows).filter (fun p => p.1 = b)).Perm
      ((fillnaZero (leftJoinMonths buckets rows)).filter (fun p => p.1 = b)) :=
    (List.perm_insertionSort _ _).filter _
  refine (h1.map Prod.snd).trans ?_
  rw [filter_fill_eq buckets rows b hnd hb]
  split
  · simp
  · rw [List.map_map]
    exact List.Perm.refl _

/-- Claim C5 witness: the duplicate-month instance, where the bucket's
output amounts are exactly the two matching input amounts. -/
theorem fill_months_duplicate_amounts_witness :
    (((fill_months [0] [(0, (1 : Rat)), (0, 2)]).filter (fun p => p.1 = 0)).map Prod.snd).Perm
      (if (([(0, (1 : Rat)), (0, 2)] : List (Month × Rat)).filter (fun r => r.1 = 0)).isEmpty
       then [(0 : Rat)]
       else (([(0, (1 : Rat)), (0, 2)] : List (Month × Rat)).filter (fun r => r.1 = 0)).map Prod.snd) :=
  fill_months_duplicate_amounts [0] [(0, (1 : Rat)), (0, 2)] 0 (by decide) (by decide)

/-! ### Claim C3: behaviour on an empty monthly result set -/

/-- Claim C3 (code bug, failing input evaluated): when the monthly-totals
query succeeds with zero rows, the pipeline does not produce the
all-zero scaffolded month series the claim requires: `pd.DataFrame([])`
has no `month` column, so the pipeline raises `KeyError` and the page-wide
handler replaces chart, table and totals row with an error message. -/
theorem monthlyPipeline_empty_errors (s e : Month) :
    monthlyPipeline s e [] = Except.error ("KeyError: month") :=
  rfl

/-! ### Claims C1 and C2: the totals row and the percentage policy -/

/-- Claim C1, counterexample: on an input the page really processes (all
three guarded queries nonempty — monthly current `[(0, 50)]`, client rows
`[("A", 100)]` against previous client rows `[("A", 30)]`), the program
builds the table whose one non-total row carries current `100`, while the
appended totals row carries `50`, the separately-queried monthly period
total — so the claimed invariant
`totals.current_amount == sum(row.current_amount for row in non_total_rows)`
fails (and likewise `previous`: row sum `30` against totals `0`). -/
theorem totals_row_not_row_sum :
    revenueComparisonTable 0 0 [(0, 50)] [] [(("A"), 100)] [(("A"), 30)] =
      Except.ok [⟨("A"), 100, 30, 70, some (700 / 3)⟩, totals_row 50 0] ∧
    (([⟨("A"), (100 : Rat), 30, 70, some (700 / 3)⟩, totals_row 50 0] :
        List ComparisonRow).dropLast.map ComparisonRow.revenue_current).sum = 100 ∧
    (totals_row (50 : Rat) 0).revenue_current ≠ 100 ∧
    (([⟨("A"), (100 : Rat), 30, 70, some (700 / 3)⟩, totals_row 50 0] :
        List ComparisonRow).dropLast.map ComparisonRow.revenue_previous).sum = 30 ∧
    (totals_row (50 : Rat) 0).revenue_previous ≠ 30 := by
  refine ⟨?_, ?_, ?_, ?_, ?_⟩
  · norm_num [revenueComparisonTable, clientsTable, clientsMergedRows, outerMergeClients,
      totalInvoicedCurrent, totalInvoicedPrevious, fill_months, monthRange, leftJoinMonths,
      monthSegment, fillnaZero, List.insertionSort, List.orderedInsert,
      calc_percentage_diff, totals_row, percent_diff]
  · norm_num [totals_row]
  · norm_num [totals_row]
  · norm_num [totals_row]
  · norm_num [totals_row]

/-- Claim C1 (amended): whenever the Revenue page actually builds the
comparison table (the guarded queries all returned rows; otherwise the
pipeline raises `KeyError` and no table exists), the appended totals row
is the last row and its amounts are the separately-queried period totals
— the sum of the gap-filled monthly series for the current side, the
previous monthly query's sum for the previous side — rather than the sums
of the table's non-total rows; the two coincide only when the
client-level and monthly queries agree. -/
theorem totals_row_is_period_totals (s e : Month)
    (curMonthly prevMonthly : List (Month × Rat))
    (curClients prevClients : List (String × Rat)) :
    ∀ tbl, revenueComparisonTable s e curMonthly prevMonthly curClients prevClients =
        Except.ok tbl →
      tbl.getLast? = some (totals_row (totalInvoicedCurrent s e curMonthly)
        (totalInvoicedPrevious prevMonthly)) := by
  intro tbl ht
  by_cases h1 : curMonthly.isEmpty
  · rw [revenueComparisonTable, if_pos h1] at ht
    simp at ht
  · by_cases h2 : curClients.isEmpty ∨ prevClients.isEmpty
    · rw [revenueComparisonTable, if_neg h1, if_pos h2] at ht
      simp at ht
    · rw [revenueComparisonTable, if_neg h1, if_neg h2] at ht
      injection ht with h
      rw [← h]
      exact List.getLast?_concat _

/-- Claim C1 witness: the amended claim applied to a concrete table the
pipeline builds. -/
theorem totals_row_is_period_totals_witness :
    ([⟨("A"), (1 : Rat), 0, 1, none⟩, ⟨("B"), 0, 2, -2, some (-100)⟩,
        ⟨("Total"), 3, 4, -1, some (-25)⟩] : List ComparisonRow).getLast? =
      some (totals_row (totalInvoicedCurrent 0 0 [(0, 3)])
        (totalInvoicedPrevious [(0, 4)])) :=
  totals_row_is_period_totals 0 0 [(0, 3)] [(0, 4)] [(("A"), 1)] [(("B"), 2)]
    ([⟨("A"), (1 : Rat), 0, 1, none⟩, ⟨("B"), 0, 2, -2, some (-100)⟩,
        ⟨("Total"), 3, 4, -1, some (-25)⟩])
    (by
      norm_num [revenueComparisonTable, clientsTable, clientsMergedRows,
        outerMergeClients, totalInvoicedCurrent, totalInvoicedPrevious, fill_months,
        monthRange, leftJoinMonths, monthSegment, fillnaZero, List.insertionSort,
        List.orderedInsert, calc_percentage_diff, totals_row, percent_diff])

/-- Claim C2, counterexample: on an input the page really processes
(monthly current `[(0, 100)]`, previous monthly `[(0, 0)]`, client rows
`[("A", 100)]` against previous client rows `[("A", 0)]`), the built
table's non-total row has previous `0` and the `None` marker (rendered as
a dash), but the appended totals row — whose previous amount is the zero
period total — carries `some 0` (rendered `0.0%`), not the undefined
marker: the claimed zero-denominator policy fails for the totals row. -/
theorem totals_pct_not_undefined :
    revenueComparisonTable 0 0 [(0, 100)] [(0, 0)] [(("A"), 100)] [(("A"), 0)] =
      Except.ok [⟨("A"), 100, 0, 100, none⟩, totals_row 100 0] ∧
    (⟨("A"), (100 : Rat), 0, 100, none⟩ : ComparisonRow).pct_difference = none ∧
    formatPctCell ((⟨("A"), (100 : Rat), 0, 100, none⟩ : ComparisonRow).pct_difference) =
      ("-") ∧
    (totals_row (100 : Rat) 0).revenue_previous = 0 ∧
    (totals_row (100 : Rat) 0).pct_difference = some 0 ∧
    (totals_row (100 : Rat) 0).pct_difference ≠ none := by
  refine ⟨?_, rfl, rfl, rfl, ?_, ?_⟩
  · norm_num [revenueComparisonTable, clientsTable, clientsMergedRows, outerMergeClients,
      totalInvoicedCurrent, totalInvoicedPrevious, fill_months, monthRange, leftJoinMonths,
      monthSegment, fillnaZero, List.insertionSort, List.orderedInsert,
      calc_percentage_diff, totals_row, percent_diff]
  · norm_num [totals_row, percent_diff]
  · norm_num [totals_row, percent_diff]
    exact Option.some_ne_none _

/-- Claim C2 (amended): in every comparison table the Revenue page
actually builds, each non-total row follows the zero-denominator policy —
`% Difference` is `(cur - prev) / prev * 100` when the previous amount is
nonzero and the explicit `None` marker (rendered as a dash) when it is
zero — while the appended totals row instead carries `percent_diff`,
which coerces a zero previous-period total to `0.0`. -/
theorem pct_difference_policy (s e : Month)
    (curMonthly prevMonthly : List (Month × Rat))
    (curClients prevClients : List (String × Rat)) :
    ∀ tbl, revenueComparisonTable s e curMonthly prevMonthly curClients prevClients =
        Except.ok tbl →
      (∀ r ∈ tbl.dropLast,
        r.pct_difference =
          if r.revenue_previous = 0 then none
          else some ((r.revenue_current - r.revenue_previous) / r.revenue_previous * 100)) ∧
      formatPctCell none = ("-") ∧
      tbl.getLast? = some (totals_row (totalInvoicedCurrent s e curMonthly)
        (totalInvoicedPrevious prevMonthly)) := by
  intro tbl ht
  by_cases h1 : curMonthly.isEmpty
  · rw [revenueComparisonTable, if_pos h1] at ht
    simp at ht
  · by_cases h2 : curClients.isEmpty ∨ prevClients.isEmpty
    · rw [revenueComparisonTable, if_neg h1, if_pos h2] at ht
      simp at ht
    · rw [revenueComparisonTable, if_neg h1, if_neg h2] at ht
      injection ht with h
      rw [← h]
      refine ⟨?_, rfl, List.getLast?_concat _⟩
      intro r hr
      rw [clientsTable, List.dropLast_concat, clientsMergedRows,
        List.mem_insertionSort] at hr
      obtain ⟨x, _, hx⟩ := List.mem_map.mp hr
      rw [← hx]
      simp only [calc_percentage_diff]

/-- Claim C2 witness: a concrete row (`"B"`, current `0`, previous `50`)
of a concrete table the pipeline builds, satisfying the non-total-row
policy. -/
theorem pct_difference_policy_witness :
    (⟨("B"), 0, 50, -50, some (-100)⟩ : ComparisonRow).pct_difference =
      (if ((⟨("B"), 0, 50, -50, some (-100)⟩ : ComparisonRow)).revenue_previous = 0 then none
       else some ((((⟨("B"), 0, 50, -50, some (-100)⟩ : ComparisonRow)).revenue_current -
           ((⟨("B"), 0, 50, -50, some (-100)⟩ : ComparisonRow)).revenue_previous) /
         ((⟨("B"), 0, 50, -50, some (-100)⟩ : ComparisonRow)).revenue_previous * 100)) :=
  ((pct_difference_policy 0 0 [(0, 7)] [] [(("A"), 100)] [(("B"), 50)]
    ([⟨("A"), (100 : Rat), 0, 100, none⟩, ⟨("B"), 0, 50, -50, some (-100)⟩,
        ⟨("Total"), 7, 0, 7, some 0⟩])
    (by
      norm_num [revenueComparisonTable, clientsTable, clientsMergedRows,
        outerMergeClients, totalInvoicedCurrent, totalInvoicedPrevious, fill_months,
        monthRange, leftJoinMonths, monthSegment, fillnaZero, List.insertionSort,
        List.orderedInsert, calc_percentage_diff, totals_row, percent_diff])).1
    (⟨("B"), 0, 50, -50, some (-100)⟩ : ComparisonRow)
    (by decide))

/-! ### Claim C7: fiscal-year start rule -/

/-- Claim C7: for every reference date with a month in `[1..12]`, the
fiscal year starts on October 1 of the same calendar year when the month
is in `[10..12]`, and on October 1 of the previous calendar year when the
month is in `[1..9]`; this is the rule implemented identically in all
three pages. -/
theorem fiscal_year_start_rule (d : PyDate) (h1 : 1 <= d.month)
    (h2 : d.month <= 12) :
    (10 <= d.month -> start_of_financial_year d = PyDate.mk d.year 10 1) /\
    (d.month <= 9 -> start_of_financial_year d = PyDate.mk (d.year - 1) 10 1) := by
  constructor
  . intro hm
    rw [start_of_financial_year, if_pos hm]
  . intro hm
    rw [start_of_financial_year, if_neg (by omega)]

/-- Claim C7 witness: the rule evaluated at 12 October 2026. -/
theorem fiscal_year_start_rule_witness :
    (10 <= (PyDate.mk 2026 10 12).month ->
      start_of_financial_year (PyDate.mk 2026 10 12) = PyDate.mk (2026 : Int) 10 1) /\
    ((PyDate.mk 2026 10 12).month <= 9 ->
      start_of_financial_year (PyDate.mk 2026 10 12) = PyDate.mk ((2026 : Int) - 1) 10 1) :=
  fiscal_year_start_rule (PyDate.mk 2026 10 12) (by decide) (by decide)

/-! ### Claim C8: shifting a fiscal year back one calendar year -/

/-- Claim C8: for a well-formed fiscal-year pair of boundary dates,
`previous_financial_year` shifts each boundary back exactly one calendar
year: the year field drops by one and month and day are preserved, except
that a boundary on Feb 29 of a leap year is clamped to Feb 28 (the
`pd.DateOffset(years=1)` adjustment). -/
theorem previous_financial_year_shift (fy : FiscalYearBounds)
    (hs : validDate fy.start_date) (he : validDate fy.end_date) :
    ((previous_financial_year fy).start_date.year = fy.start_date.year - 1 /\
      (if fy.start_date.month = 2 /\ fy.start_date.day = 29
       then (previous_financial_year fy).start_date.month = 2 /\
         (previous_financial_year fy).start_date.day = 28
       else (previous_financial_year fy).start_date.month = fy.start_date.month /\
         (previous_financial_year fy).start_date.day = fy.start_date.day)) /\
    ((previous_financial_year fy).end_date.year = fy.end_date.year - 1 /\
      (if fy.end_date.month = 2 /\ fy.end_date.day = 29
       then (previous_financial_year fy).end_date.month = 2 /\
         (previous_financial_year fy).end_date.day = 28
       else (previous_financial_year fy).end_date.month = fy.end_date.month /\
         (previous_financial_year fy).end_date.day = fy.end_date.day)) := by
  constructor
  . unfold previous_financial_year dateOffsetSubYear
    by_cases hc : fy.start_date.month = 2 /\ fy.start_date.day = 29
    . simp [hc]
    . simp [hc]
  . unfold previous_financial_year dateOffsetSubYear
    by_cases hc : fy.end_date.month = 2 /\ fy.end_date.day = 29
    . simp [hc]
    . simp [hc]

/-- Claim C8 witness: the fiscal year 1 Oct 2024 - 30 Sep 2025 shifts to
1 Oct 2023 - 30 Sep 2024. -/
theorem previous_financial_year_shift_witness :
    ((previous_financial_year (FiscalYearBounds.mk (PyDate.mk 2024 10 1) (PyDate.mk 2025 9 30))).start_date.year =
        (FiscalYearBounds.mk (PyDate.mk 2024 10 1) (PyDate.mk 2025 9 30)).start_date.year - 1 /\
      (if (FiscalYearBounds.mk (PyDate.mk 2024 10 1) (PyDate.mk 2025 9 30)).start_date.month = 2 /\
          (FiscalYearBounds.mk (PyDate.mk 2024 10 1) (PyDate.mk 2025 9 30)).start_date.day = 29
       then (previous_financial_year (FiscalYearBounds.mk (PyDate.mk 2024 10 1) (PyDate.mk 2025 9 30))).start_date.month = 2 /\
         (previous_financial_year (FiscalYearBounds.mk (PyDate.mk 2024 10 1) (PyDate.mk 2025 9 30))).start_date.day = 28
       else (previous_financial_year (FiscalYearBounds.mk (PyDate.mk 2024 10 1) (PyDate.mk 2025 9 30))).start_date.month =
           (FiscalYearBounds.mk (PyDate.mk 2024 10 1) (PyDate.mk 2025 9 30)).start_date.month /\
         (previous_financial_year (FiscalYearBounds.mk (PyDate.mk 2024 10 1) (PyDate.mk 2025 9 30))).start_date.day =
           (FiscalYearBounds.mk (PyDate.mk 2024 10 1) (PyDate.mk 2025 9 30)).start_date.day)) /\
    ((previous_financial_year (FiscalYearBounds.mk (PyDate.mk 2024 10 1) (PyDate.mk 2025 9 30))).end_date.year =
        (FiscalYearBounds.mk (PyDate.mk 2024 10 1) (PyDate.mk 2025 9 30)).end_date.year - 1 /\
      (if (FiscalYearBounds.mk (PyDate.mk 2024 10 1) (PyDate.mk 2025 9 30)).end_date.month = 2 /\
          (FiscalYearBounds.mk (PyDate.mk 2024 10 1) (PyDate.mk 2025 9 30)).end_date.day = 29
       then (previous_financial_year (FiscalYearBounds.mk (PyDate.mk 2024 10 1) (PyDate.mk 2025 9 30))).end_date.month = 2 /\
         (previous_financial_year (FiscalYearBounds.mk (PyDate.mk 2024 10 1) (PyDate.mk 2025 9 30))).end_date.day = 28
       else (previous_financial_year (FiscalYearBounds.mk (PyDate.mk 2024 10 1) (PyDate.mk 2025 9 30))).end_date.month =
           (FiscalYearBounds.mk (PyDate.mk 2024 10 1) (PyDate.mk 2025 9 30)).end_date.month /\
         (previous_financial_year (FiscalYearBounds.mk (PyDate.mk 2024 10 1) (PyDate.mk 2025 9 30))).end_date.day =
           (FiscalYearBounds.mk (PyDate.mk 2024 10 1) (PyDate.mk 2025 9 30)).end_date.day)) :=
  previous_financial_year_shift
    (FiscalYearBounds.mk (PyDate.mk 2024 10 1) (PyDate.mk 2025 9 30))
    (by decide) (by decide)

/-! ### Claim C9: missing connection parameters -/

/-- Claim C9, counterexample: with every secret absent, the Revenue page's
credential loading raises on the very first dict entry, reporting only the
key `type`; the other nine parameters (for instance `project_id`, also
absent in this input) are not part of the message, so the system does not
always report every missing parameter. -/
theorem revenue_credentials_first_only :
    revenue_credentials (fun _ => none) = Except.error ("type") /\
    (fun _ => (none : Option String)) ("project_id") = none /\
    ("type" : String) ≠ ("project_id") := by
  refine ⟨rfl, rfl, ?_⟩
  decide

/-- Claim C9 (amended): the Cashflow page's `load_credentials` does fail
fast with a single message listing every missing environment variable
(`missing_vars` collects exactly the keys whose variable is absent, and
the error message interleaves all of them), but the Revenue page's
secrets-based loading instead raises on the first missing key alone. -/
theorem load_credentials_lists_all (env : String -> Option String) :
    (missing_vars env ≠ [] ->
      load_credentials env = Except.error (("Missing environment variables: ") ++
        String.intercalate (", ") (missing_vars env))) /\
    (∀ p ∈ credEnvVars, env p.2 = none → p.1 ∈ missing_vars env) /\
    (∀ k ∈ missing_vars env, ∃ p ∈ credEnvVars, p.1 = k ∧ env p.2 = none) := by
  refine ⟨?_, ?_, ?_⟩
  . intro hne
    rw [load_credentials]
    simp only [List.isEmpty_iff]
    rw [if_neg hne]
  . intro p hp hnone
    rw [missing_vars]
    exact List.mem_map.mpr ⟨p, List.mem_filter.mpr ⟨hp, by simp [hnone]⟩, rfl⟩
  . intro k hk
    rw [missing_vars] at hk
    obtain ⟨p, hp, hpk⟩ := List.mem_map.mp hk
    have hf := List.mem_filter.mp hp
    exact ⟨p, hf.1, hpk, by simpa [Option.isNone_iff_eq_none] using hf.2⟩

/-- Claim C9 witness: with only `GCP_TYPE` absent, the key `type` is
listed among the missing variables. -/
theorem load_credentials_lists_all_witness :
    ("type") ∈ missing_vars (fun v => if v = ("GCP_TYPE") then none else some ("x")) :=
  (load_credentials_lists_all (fun v => if v = ("GCP_TYPE") then none else some ("x"))).2.1
    (("type"), ("GCP_TYPE")) (by decide) (by rfl)

/-! ### Claim C10: the cashflow month-by-month table -/

/-- Claim C10: the cashflow month-by-month table is not gap-filled: no
table is produced exactly when the monthly data set is empty, and
otherwise the table's columns are precisely the months that occur in the
input rows (membership both ways, so no zero-filled column is invented for
an absent month), in strictly increasing chronological order. -/
theorem cashflow_table_columns (rows : List (Month × Rat)) :
    (cashflow_month_table rows = none <-> rows = []) /\
    ∀ t, cashflow_month_table rows = some t →
      ((∀ m, m ∈ t.map Prod.fst ↔ m ∈ rows.map Prod.fst) /\
        (t.map Prod.fst).Pairwise (fun a b => a < b)) := by
  constructor
  . rw [cashflow_month_table]
    by_cases hc : rows.isEmpty
    . simp [hc, List.isEmpty_iff.mp hc]
    . simp only [hc, if_false, Bool.false_eq_true]
      constructor
      . intro h
        cases h
      . intro h
        exact absurd (h ▸ List.isEmpty_nil) hc
  . intro t ht
    rw [cashflow_month_table] at ht
    by_cases hc : rows.isEmpty
    . rw [if_pos hc] at ht
      cases ht
    . rw [if_neg hc] at ht
      have ht' : t = (List.insertionSort (fun a b => a ≤ b) (rows.map Prod.fst).dedup).map
          (fun m => (m, ((rows.filter (fun r => r.1 = m)).map Prod.snd).sum)) :=
        (Option.some_inj.mp ht).symm
      have hfst : t.map Prod.fst =
          List.insertionSort (fun a b => a ≤ b) (rows.map Prod.fst).dedup := by
        rw [ht', List.map_map]
        exact List.map_id _
      constructor
      . intro m
        rw [hfst, List.mem_insertionSort, List.mem_dedup]
      . rw [hfst]
        have hsorted : List.Sorted (fun a b => a ≤ b)
            (List.insertionSort (fun a b => a ≤ b) (rows.map Prod.fst).dedup) :=
          List.sorted_insertionSort _ _
        have hnd : (List.insertionSort (fun a b => a ≤ b) (rows.map Prod.fst).dedup).Nodup :=
          (List.perm_insertionSort _ _).symm.nodup (List.nodup_dedup _)
        exact List.Sorted.lt_of_le hsorted hnd

/-- Claim C10 witness: the two-month data set `[(1, 5), (0, 3)]` yields
the table with columns `0, 1`, strictly ordered. -/
theorem cashflow_table_columns_witness :
    (([((0 : Month), (3 : Rat)), (1, 5)] : List (Month × Rat)).map Prod.fst).Pairwise
      (fun a b => a < b) :=
  ((cashflow_table_columns [(1, (5 : Rat)), (0, 3)]).2
    [((0 : Month), (3 : Rat)), (1, 5)]
    (by
      norm_num [cashflow_month_table, List.insertionSort, List.orderedInsert,
        List.dedup, List.pwFilter])).2

end AbsurdMI
